import Mathlib

/-!
Verification of the SQL practice app (`src/app.py`).

The development shallowly embeds the app's core logic:
* the Python string operations used by the query gate in `main`
  (lines 181-191 of `app.py`),
* the store lifecycle (`reset_db`, `init_db`),
* the schema introspection (`get_schema_summary`),
* the run handler around `run_query`, with the external SQL engine
  modelled for the few concrete queries exercised by the spec.
-/

/-- Characters stripped by Python `str.strip()` with no argument
(ASCII fragment: space, tab, newline, carriage return, vertical tab,
form feed). -/
def pyIsSpace (c : Char) : Bool :=
  c = ' ' || c = '\t' || c = '\n' || c = '\r' || c = '\x0b' || c = '\x0c'

/-- Python `s.strip()`: remove leading and trailing whitespace. -/
def pyStrip (s : String) : String :=
  ⟨((s.data.dropWhile pyIsSpace).reverse.dropWhile pyIsSpace).reverse⟩

/-- Python `s.rstrip(";")`: remove ALL trailing semicolon characters. -/
def rstripSemis (s : String) : String :=
  ⟨(s.data.reverse.dropWhile (fun c => c = ';')).reverse⟩

/-- Python `s.lower().startswith("select")` (ASCII lowering, as in the
queries this app handles). -/
def startsWithSelect (s : String) : Bool :=
  "select".data.isPrefixOf (s.data.map Char.toLower)

/-- Outcome of the query gate (spec §4.2 `authorize`). -/
inductive GateResult where
  | emptyQuery
  | disallowed
  | approved (q : String)
deriving DecidableEq, Repr

/-- The query gate, exactly as inlined in `main` (`app.py` lines 181-191):
`query = input.strip()`; empty → warning; `query = query.rstrip(";").strip()`;
not `query.lower().startswith("select")` → error; else approved unchanged. -/
def authorize (raw : String) : GateResult :=
  let query := pyStrip raw
  if query = "" then GateResult.emptyQuery
  else
    let query2 := pyStrip (rstripSemis query)
    if startsWithSelect query2 then GateResult.approved query2
    else GateResult.disallowed

/-- Python-style removal of exactly ONE trailing semicolon, as claim C2
words the stripping step ("strips exactly one trailing semicolon
character"). -/
def stripOneSemi (s : String) : String :=
  match s.data.reverse with
  | [] => s
  | c :: cs => if c = ';' then ⟨cs.reverse⟩ else s

/-- The gate as the claim states it verbatim: identical pipeline but
stripping exactly one trailing semicolon. -/
def authorizeClaim (raw : String) : GateResult :=
  let query := pyStrip raw
  if query = "" then GateResult.emptyQuery
  else
    let query2 := pyStrip (stripOneSemi query)
    if startsWithSelect query2 then GateResult.approved query2
    else GateResult.disallowed

/-- Independent recursive formulation of "remove all trailing semicolons"
(working on the reversed character list), used by the amended spec-side
gate. -/
def dropLeadingSemis : List Char → List Char
  | [] => []
  | c :: cs => if c = ';' then dropLeadingSemis cs else c :: cs

/-- Spec-side strip-all-trailing-semicolons, via `dropLeadingSemis`. -/
def stripAllSemis (s : String) : String :=
  ⟨(dropLeadingSemis s.data.reverse).reverse⟩

/-- The amended claim C2 as a definition: trim; reject empty; strip ALL
trailing semicolons and trim again; case-insensitive `select` prefix
check; approve the processed text unchanged. -/
def authorizeAmended (raw : String) : GateResult :=
  let query := pyStrip raw
  if query = "" then GateResult.emptyQuery
  else
    let query2 := pyStrip (stripAllSemis query)
    if startsWithSelect query2 then GateResult.approved query2
    else GateResult.disallowed

/-- A row of the `users` table (`CREATE TABLE users`, `app.py` lines 51-60).
`id` is the AUTOINCREMENT primary key. -/
structure UserRow where
  id : Nat
  name : String
  email : String
  city : String
deriving DecidableEq, Repr

/-- A row of the `orders` table (`CREATE TABLE orders`, `app.py` lines
62-73). `amount` is declared REAL; every fixture value is integral, so it
is embedded as an integer. -/
structure OrderRow where
  id : Nat
  user_id : Nat
  amount : Int
  status : String
  created_at : String
deriving DecidableEq, Repr

/-- The on-disk store: whether the database file exists, and for each of
the two tables, `none` when the table is absent and otherwise its declared
schema (column name, declared type, in declaration order) together with
its rows. -/
structure Store where
  fileExists : Bool
  users : Option (List (String × String) × List UserRow)
  orders : Option (List (String × String) × List OrderRow)
deriving DecidableEq, Repr

/-- Declared columns of `users`, in declaration order. -/
def usersSchema : List (String × String) :=
  [("id", "INTEGER"), ("name", "TEXT"), ("email", "TEXT"), ("city", "TEXT")]

/-- Declared columns of `orders`, in declaration order. -/
def ordersSchema : List (String × String) :=
  [("id", "INTEGER"), ("user_id", "INTEGER"), ("amount", "REAL"),
   ("status", "TEXT"), ("created_at", "TEXT")]

/-- The seed `users` tuples (name, email, city), `app.py` lines 75-80. -/
def usersSeed : List (String × String × String) :=
  [("Adarsh", "adarsh@mail.com", "Goa"),
   ("Pranjali", "pranjali@mail.com", "Mumbai"),
   ("Rahul", "rahul@mail.com", "Pune"),
   ("Amit", "amit@mail.com", "Delhi")]

/-- `executemany` insertion into a fresh `users` table: AUTOINCREMENT
assigns ids 1, 2, ... in insertion order. -/
def insertUsers (xs : List (String × String × String)) : List UserRow :=
  xs.enum.map (fun p => ⟨p.1 + 1, p.2.1, p.2.2.1, p.2.2.2⟩)

/-- The `id_map` dict built from `SELECT id, name FROM users`
(`app.py` lines 83-84): a Python dict comprehension keeps the LAST entry
for a repeated name, modelled by pushing rows onto an association list and
taking the first hit. -/
def idMapLookup (rows : List UserRow) (name : String) : Option Nat :=
  (rows.foldl (fun m r => (r.name, r.id) :: m) []).lookup name

/-- The seed `orders` tuples as written in `app.py` lines 86-94: each is
`(id_map[name], amount, status, created_at)`. -/
def ordersSeed : List (String × Int × String × String) :=
  [("Adarsh", 500, "PAID", "2026-01-10"),
   ("Adarsh", 999, "PENDING", "2026-01-11"),
   ("Pranjali", 1299, "PAID", "2026-01-11"),
   ("Rahul", 2500, "CANCELLED", "2026-01-12"),
   ("Amit", 799, "PAID", "2026-01-12"),
   ("Pranjali", 1500, "PENDING", "2026-01-13"),
   ("Rahul", 1800, "PAID", "2026-01-13")]

/-- Resolve every `id_map[name]` lookup of the seed orders list; `none`
models the `KeyError` Python would raise on a missing name. Then insert
with AUTOINCREMENT ids 1, 2, ... . -/
def buildOrders (userRows : List UserRow) : Option (List OrderRow) :=
  (ordersSeed.mapM (fun e =>
      (idMapLookup userRows e.1).map (fun uid => (uid, e.2)))).map
    (fun resolved =>
      resolved.enum.map (fun p => ⟨p.1 + 1, p.2.1, p.2.2.1, p.2.2.2.1, p.2.2.2.2⟩))

/-- `reset_db` (`app.py` lines 44-100): drop both tables, recreate them,
insert the seed users, build `id_map`, insert the seed orders, commit.
Opening the connection creates the database file. The prior store
contents are discarded entirely. `none` models a raised exception. -/
def reset_db (_prior : Store) : Option Store :=
  let newUsers := insertUsers usersSeed
  (buildOrders newUsers).map (fun newOrders =>
    { fileExists := true
      users := some (usersSchema, newUsers)
      orders := some (ordersSchema, newOrders) })

/-- `init_db` (`app.py` lines 103-106): reset only when the database file
does not exist; otherwise do nothing. -/
def init_db (s : Store) : Option Store :=
  if s.fileExists then some s else reset_db s

/-- `PRAGMA table_info(t)` restricted to `name`/`type`, for the two fixed
tables: the schema held by the live store. -/
def table_info (s : Store) (t : String) : Option (List (String × String)) :=
  if t = "users" then s.users.map Prod.fst
  else if t = "orders" then s.orders.map Prod.fst
  else none

/-- `get_schema_summary` (`app.py` lines 114-121): the `name`/`type`
summary of `users` then `orders`, read live from the store metadata. -/
def get_schema_summary (s : Store) :
    Option (List (String × List (String × String))) :=
  match table_info s "users", table_info s "orders" with
  | some us, some os => some [("users", us), ("orders", os)]
  | _, _ => none

/-- A value in a result cell (the engine returns integers and text here). -/
inductive Cell where
  | int (n : Int)
  | str (s : String)
deriving DecidableEq, Repr

/-- A materialized engine result: ordered named columns, ordered rows. -/
structure QueryResult where
  cols : List String
  rows : List (List Cell)
deriving DecidableEq, Repr

/-- Rows of `orders` with status PAID. -/
def countPaid (rows : List OrderRow) : Nat :=
  (rows.filter (fun r => r.status = "PAID")).length

/-- Modelled from the spec: the relational engine (an out-of-scope
external collaborator used as a black box by `run_query`, `app.py` lines
109-111) executing the concrete queries the spec exercises. A query on a
missing table or any unrecognized text (e.g. `SELEC * FROM users`) fails
with the engine's raw message; `COUNT(*) ... WHERE status='PAID'` filters
and counts; `SELECT * FROM users` returns all user rows. -/
def run_query (q : String) (s : Store) : Except String QueryResult :=
  if q = "SELECT COUNT(*) AS total_paid FROM orders WHERE status='PAID'" then
    match s.orders with
    | none => Except.error ("Execution failed on sql " ++ q ++ ": no such table: orders")
    | some (_, rs) => Except.ok ⟨["total_paid"], [[Cell.int (countPaid rs)]]⟩
  else if q = "SELECT * FROM users" then
    match s.users with
    | none => Except.error ("Execution failed on sql " ++ q ++ ": no such table: users")
    | some (_, rs) =>
        Except.ok ⟨["id", "name", "email", "city"],
          rs.map (fun r => [Cell.int r.id, Cell.str r.name, Cell.str r.email, Cell.str r.city])⟩
  else
    Except.error ("Execution failed on sql " ++ q ++ ": syntax error")

/-- What the run handler renders (`app.py` lines 181-198): the warning for
empty input, the only-SELECT error, the engine error message shown
verbatim by `st.error(str(exc))`, or the result table. -/
inductive UiAction where
  | warnEmpty
  | errorOnlySelect
  | showError (msg : String)
  | showTable (t : QueryResult)
deriving DecidableEq, Repr

/-- The `try: run_query ... except ... st.error(str(exc))` body
(`app.py` lines 193-198), over an arbitrary engine. -/
def execute (engine : String → Store → Except String QueryResult)
    (q : String) (s : Store) : UiAction :=
  match engine q s with
  | Except.ok t => UiAction.showTable t
  | Except.error m => UiAction.showError m

/-- Dispatch on the gate's verdict, as in `main`: rejections render a
message without touching the store; approvals run the approved text. -/
def dispatch (engine : String → Store → Except String QueryResult)
    (s : Store) : GateResult → UiAction
  | GateResult.emptyQuery => UiAction.warnEmpty
  | GateResult.disallowed => UiAction.errorOnlySelect
  | GateResult.approved q => execute engine q s

/-- The complete run-click handler (`app.py` lines 181-198): gate the raw
input, then execute only if approved. -/
def runHandler (engine : String → Store → Except String QueryResult)
    (s : Store) (raw : String) : UiAction :=
  dispatch engine s (authorize raw)

/-- The exact store produced by a reset: the four seed users with
AUTOINCREMENT ids 1-4 and the seven seed orders with ids 1-7. -/
def seedStore : Store :=
  { fileExists := true
    users := some (usersSchema,
      [⟨1, "Adarsh", "adarsh@mail.com", "Goa"⟩,
       ⟨2, "Pranjali", "pranjali@mail.com", "Mumbai"⟩,
       ⟨3, "Rahul", "rahul@mail.com", "Pune"⟩,
       ⟨4, "Amit", "amit@mail.com", "Delhi"⟩])
    orders := some (ordersSchema,
      [⟨1, 1, 500, "PAID", "2026-01-10"⟩,
       ⟨2, 1, 999, "PENDING", "2026-01-11"⟩,
       ⟨3, 2, 1299, "PAID", "2026-01-11"⟩,
       ⟨4, 3, 2500, "CANCELLED", "2026-01-12"⟩,
       ⟨5, 4, 799, "PAID", "2026-01-12"⟩,
       ⟨6, 2, 1500, "PENDING", "2026-01-13"⟩,
       ⟨7, 3, 1800, "PAID", "2026-01-13"⟩]) }

/-- A store whose database file does not exist yet (fresh first run). -/
def freshStore : Store :=
  { fileExists := false, users := none, orders := none }

/-- A store whose database file exists but holds neither table (an empty
or truncated file). -/
def truncatedStore : Store :=
  { fileExists := true, users := none, orders := none }

theorem dropLeadingSemis_eq (l : List Char) :
    dropLeadingSemis l = l.dropWhile (fun c => c = ';') := by
  induction l with
  | nil => rfl
  | cons c cs ih =>
      by_cases h : c = ';'
      · simp [dropLeadingSemis, List.dropWhile, h, ih]
      · simp [dropLeadingSemis, List.dropWhile, h]

theorem stripAllSemis_eq (s : String) : stripAllSemis s = rstripSemis s := by
  unfold stripAllSemis rstripSemis
  rw [dropLeadingSemis_eq]

theorem rstripSemis_all (s : String) (h : ∀ c ∈ s.data, c = ';') :
    rstripSemis s = "" := by
  unfold rstripSemis
  have hnil : s.data.reverse.dropWhile (fun c => c = ';') = [] := by
    rw [List.dropWhile_eq_nil_iff]
    intro x hx
    rw [List.mem_reverse] at hx
    simp [h x hx]
  rw [hnil]
  rfl

/-- C1: after `reset_db`, whatever the prior store held, the store is
exactly the seeded one — the four literal users (ids 1-4) and seven
literal orders (ids 1-7); the account named Adarsh (id 1) has exactly the
two orders (500, PAID, 2026-01-10) and (999, PENDING, 2026-01-11); no
prior row survives since the result is the same fixed store for every
prior state. -/
theorem reset_db_produces_exact_seed (s : Store) :
    reset_db s = some seedStore ∧
    seedStore.users = some (usersSchema,
      [⟨1, "Adarsh", "adarsh@mail.com", "Goa"⟩,
       ⟨2, "Pranjali", "pranjali@mail.com", "Mumbai"⟩,
       ⟨3, "Rahul", "rahul@mail.com", "Pune"⟩,
       ⟨4, "Amit", "amit@mail.com", "Delhi"⟩]) ∧
    seedStore.orders = some (ordersSchema,
      [⟨1, 1, 500, "PAID", "2026-01-10"⟩,
       ⟨2, 1, 999, "PENDING", "2026-01-11"⟩,
       ⟨3, 2, 1299, "PAID", "2026-01-11"⟩,
       ⟨4, 3, 2500, "CANCELLED", "2026-01-12"⟩,
       ⟨5, 4, 799, "PAID", "2026-01-12"⟩,
       ⟨6, 2, 1500, "PENDING", "2026-01-13"⟩,
       ⟨7, 3, 1800, "PAID", "2026-01-13"⟩]) ∧
    idMapLookup ((seedStore.users.map Prod.snd).getD []) "Adarsh" = some 1 ∧
    ((seedStore.orders.map Prod.snd).getD []).filter (fun o => o.user_id = 1) =
      [⟨1, 1, 500, "PAID", "2026-01-10"⟩, ⟨2, 1, 999, "PENDING", "2026-01-11"⟩] := by
  refine ⟨rfl, rfl, rfl, by decide, by decide⟩

/-- C2 counterexample: the gate strips ALL trailing semicolons, not
exactly one. On `"select 1;;"` the code approves `"select 1"`, whereas
the claim's exactly-one-semicolon pipeline approves `"select 1;"`. -/
theorem authorize_not_one_semi_cex :
    authorize "select 1;;" = GateResult.approved "select 1" ∧
    authorizeClaim "select 1;;" = GateResult.approved "select 1;" ∧
    authorize "select 1;;" ≠ authorizeClaim "select 1;;" := by
  refine ⟨by decide, by decide, by decide⟩

/-- C2 amended: the gate trims surrounding whitespace, rejects an empty
result, strips ALL trailing semicolon characters and trims again,
case-insensitively requires the `select` prefix, and passes the processed
text through unchanged — i.e. the code gate coincides with the amended
spec-side pipeline on every input. -/
theorem authorize_eq_amended (raw : String) :
    authorize raw = authorizeAmended raw := by
  simp only [authorize, authorizeAmended, stripAllSemis_eq]

/-- C3: `init_db` on a store whose file does not exist performs exactly a
`reset_db`; on an existing file it is a no-op (the store, and hence every
row count, is unchanged); and right after a reset the file exists, so any
further `init_db` is again a no-op — it never reseeds an existing store. -/
theorem init_db_fresh_resets_then_noop (s : Store) :
    (s.fileExists = false → init_db s = reset_db s) ∧
    (s.fileExists = true → init_db s = some s) ∧
    (∀ t : Store, reset_db s = some t → init_db t = some t) := by
  refine ⟨fun h => by simp [init_db, h], fun h => by simp [init_db, h], ?_⟩
  intro t ht
  have hf : t.fileExists = true := by
    simp only [reset_db, buildOrders, Option.map] at ht
    cases ht
    rfl
  simp [init_db, hf]

/-- Witness for C3 at concrete stores: a store without a file is reset,
and the seeded store is left untouched. -/
theorem init_db_fresh_resets_then_noop_witness :
    init_db freshStore = reset_db freshStore ∧
    init_db seedStore = some seedStore :=
  ⟨(init_db_fresh_resets_then_noop freshStore).1 rfl,
   (init_db_fresh_resets_then_noop seedStore).2.1 rfl⟩

/-- C5: whenever the engine fails an approved query with some message,
the run handler renders exactly that raw message (the `except` branch
shows `str(exc)` untranslated), and likewise for the bare executor with
the gate bypassed; both are total functions, so no input crashes them. -/
theorem engine_error_surfaces_raw
    (engine : String → Store → Except String QueryResult)
    (s : Store) (raw q msg : String)
    (happ : authorize raw = GateResult.approved q)
    (herr : engine q s = Except.error msg) :
    runHandler engine s raw = UiAction.showError msg ∧
    execute engine q s = UiAction.showError msg := by
  have hexec : execute engine q s = UiAction.showError msg := by
    simp [execute, herr]
  refine ⟨?_, hexec⟩
  simp [runHandler, happ, dispatch, hexec]

/-- Witness for C5: the gate approves `select * from userz`, the modelled
engine fails it with a syntax-error message, and the handler shows that
message verbatim. -/
theorem engine_error_surfaces_raw_witness :
    runHandler run_query seedStore "select * from userz" =
      UiAction.showError "Execution failed on sql select * from userz: syntax error" ∧
    execute run_query "select * from userz" seedStore =
      UiAction.showError "Execution failed on sql select * from userz: syntax error" :=
  engine_error_surfaces_raw run_query seedStore "select * from userz"
    "select * from userz"
    "Execution failed on sql select * from userz: syntax error"
    (by decide) rfl

/-- C6: the gate's classification on the spec's fixtures — empty and
whitespace-only input is `EmptyQuery`, `DELETE`/`drop` statements are
`DisallowedStatement`, and a padded SELECT is approved with whitespace
trimmed; on every rejection the handler renders the message without
consulting the engine or the store (the outcome is the same for every
engine and store). -/
theorem gate_classification :
    authorize "" = GateResult.emptyQuery ∧
    authorize "   " = GateResult.emptyQuery ∧
    authorize "DELETE FROM users;" = GateResult.disallowed ∧
    authorize "drop table orders" = GateResult.disallowed ∧
    authorize "  SELECT * FROM users " = GateResult.approved "SELECT * FROM users" ∧
    (∀ (engine : String → Store → Except String QueryResult) (s : Store),
      runHandler engine s "" = UiAction.warnEmpty ∧
      runHandler engine s "   " = UiAction.warnEmpty ∧
      runHandler engine s "DELETE FROM users;" = UiAction.errorOnlySelect ∧
      runHandler engine s "drop table orders" = UiAction.errorOnlySelect) := by
  refine ⟨by decide, by decide, by decide, by decide, by decide,
    fun engine s => ⟨rfl, rfl, rfl, rfl⟩⟩

/-- C7: the schema summary read from the live store after a reset lists
the `users` columns id, name, email, city and the `orders` columns id,
user_id, amount, status, created_at, in declaration order with their
declared types; and on any store, the summary is exactly the metadata the
store holds (not hard-coded): changing the stored schema changes the
answer. -/
theorem describe_live_and_after_reset :
    (∀ s : Store, (reset_db s).bind get_schema_summary =
      some [("users",
              [("id", "INTEGER"), ("name", "TEXT"), ("email", "TEXT"), ("city", "TEXT")]),
            ("orders",
              [("id", "INTEGER"), ("user_id", "INTEGER"), ("amount", "REAL"),
               ("status", "TEXT"), ("created_at", "TEXT")])]) ∧
    (∀ (s : Store) (us os : List (String × String))
       (uR : List UserRow) (oR : List OrderRow),
      s.users = some (us, uR) → s.orders = some (os, oR) →
      table_info s "users" = some us ∧ table_info s "orders" = some os ∧
      get_schema_summary s = some [("users", us), ("orders", os)]) := by
  refine ⟨fun s => rfl, ?_⟩
  intro s us os uR oR hu ho
  have h1 : table_info s "users" = some us := by simp [table_info, hu]
  have h2 : table_info s "orders" = some os := by simp [table_info, ho]
  refine ⟨h1, h2, ?_⟩
  simp [get_schema_summary, h1, h2]

/-- Witness for C7 at concrete stores: the summary after resetting a
fresh store, and the live-metadata reading on the seeded store. -/
theorem describe_live_and_after_reset_witness :
    (reset_db freshStore).bind get_schema_summary =
      some [("users",
              [("id", "INTEGER"), ("name", "TEXT"), ("email", "TEXT"), ("city", "TEXT")]),
            ("orders",
              [("id", "INTEGER"), ("user_id", "INTEGER"), ("amount", "REAL"),
               ("status", "TEXT"), ("created_at", "TEXT")])] ∧
    get_schema_summary seedStore = some [("users", usersSchema), ("orders", ordersSchema)] :=
  ⟨describe_live_and_after_reset.1 freshStore,
   (describe_live_and_after_reset.2 seedStore usersSchema ordersSchema
      ((seedStore.users.map Prod.snd).getD [])
      ((seedStore.orders.map Prod.snd).getD []) rfl rfl).2.2⟩

/-- C8: after a reset, the PAID-count query returns exactly one row with
`total_paid` = 4; the four PAID rows among the seven seeded orders are
amounts 500 (Adarsh), 1299 (Pranjali), 799 (Amit) and 1800 (Rahul). -/
theorem count_paid_after_reset (s : Store) :
    (reset_db s).map
        (run_query "SELECT COUNT(*) AS total_paid FROM orders WHERE status='PAID'") =
      some (Except.ok ⟨["total_paid"], [[Cell.int 4]]⟩) ∧
    countPaid ((seedStore.orders.map Prod.snd).getD []) = 4 ∧
    ((seedStore.orders.map Prod.snd).getD []).filter (fun r => r.status = "PAID") =
      [⟨1, 1, 500, "PAID", "2026-01-10"⟩, ⟨3, 2, 1299, "PAID", "2026-01-11"⟩,
       ⟨5, 4, 799, "PAID", "2026-01-12"⟩, ⟨7, 3, 1800, "PAID", "2026-01-13"⟩] ∧
    (((seedStore.orders.map Prod.snd).getD []).filter
        (fun r => r.status = "PAID")).map
      (fun r =>
        ((((seedStore.users.map Prod.snd).getD []).find?
            (fun u => u.id = r.user_id)).map (fun u => u.name), r.amount)) =
      [(some "Adarsh", 500), (some "Pranjali", 1299),
       (some "Amit", 799), (some "Rahul", 1800)] := by
  refine ⟨rfl, by decide, by decide, by decide⟩

/-- C9: any input that is only semicolons possibly surrounded by
whitespace (its stripped form is nonempty and all semicolons) is rejected
as the only-SELECT error, not as empty — the emptiness check runs before
the semicolons are stripped — and the handler renders that error for
every engine and store, so no store access occurs. -/
theorem semicolon_only_is_disallowed (raw : String)
    (h1 : pyStrip raw ≠ "") (h2 : ∀ c ∈ (pyStrip raw).data, c = ';') :
    authorize raw = GateResult.disallowed ∧
    ∀ (engine : String → Store → Except String QueryResult) (s : Store),
      runHandler engine s raw = UiAction.errorOnlySelect := by
  have hsemis : rstripSemis (pyStrip raw) = "" := rstripSemis_all _ h2
  have hauth : authorize raw = GateResult.disallowed := by
    simp only [authorize, if_neg h1, hsemis]
    rfl
  exact ⟨hauth, fun engine s => by simp [runHandler, hauth, dispatch]⟩

/-- Witness for C9 at `" ;;; "`: stripped to `";;;"`, nonempty and all
semicolons, hence rejected as the only-SELECT error. -/
theorem semicolon_only_is_disallowed_witness :
    authorize " ;;; " = GateResult.disallowed :=
  (semicolon_only_is_disallowed " ;;; " (by decide) (by decide)).1

/-- C10: `init_db` decides first-run solely by the file-existence flag:
for every store whose file exists it is a no-op, in particular for an
existing file holding neither table, which is left unrepaired so that a
subsequent `SELECT * FROM users` fails with the engine's
no-such-table error. -/
theorem init_db_checks_file_existence_only :
    init_db truncatedStore = some truncatedStore ∧
    run_query "SELECT * FROM users" truncatedStore =
      Except.error "Execution failed on sql SELECT * FROM users: no such table: users" ∧
    (∀ s : Store, s.fileExists = true → init_db s = some s) := by
  refine ⟨rfl, rfl, fun s h => by simp [init_db, h]⟩

/-- Witness for C10 at the truncated store, whose file exists. -/
theorem init_db_checks_file_existence_only_witness :
    truncatedStore.fileExists = true ∧ init_db truncatedStore = some truncatedStore :=
  ⟨rfl, init_db_checks_file_existence_only.2.2 truncatedStore rfl⟩
